import Mathlib

/-!
Shallow embedding of three Zed source files:
  * `crates/git_hosting_providers/src/settings.rs` — settings-driven
    resolution of git hosting providers into a process-wide registry;
  * `crates/breadcrumbs/src/breadcrumbs.rs` — breadcrumb toolbar item;
  * `crates/git_ui/src/diff_view_format_selector.rs` — diff view format
    picker delegate.
Pure data and list manipulation are translated directly; framework state
(registry, toolbar item) is threaded explicitly.
-/

namespace GitHosting

/-- The kind of a git hosting provider
(`GitHostingProviderKind` in `settings.rs`). -/
inductive GitHostingProviderKind
  | Github
  | Gitlab
  | Bitbucket
deriving DecidableEq, Repr

/-- A parsed URL, as produced by the external `url` crate's `Url::parse`.
Only its identity matters to the resolver, which treats parsing as an
opaque fallible operation. -/
structure Url where
  scheme : String
  rest : String
deriving DecidableEq, Repr

/-- A custom git hosting provider declaration
(`GitHostingProviderConfig` in `settings.rs`). -/
structure GitHostingProviderConfig where
  provider : GitHostingProviderKind
  base_url : String
  name : String
deriving DecidableEq, Repr

/-- A constructed provider instance. `settings.rs` builds
`Arc<Bitbucket>` / `Arc<Github>` / `Arc<Gitlab>` from the declaration's
name and the parsed URL; each constructor wraps exactly that data. -/
inductive ProviderInstance
  | Bitbucket (name : String) (url : Url)
  | Github (name : String) (url : Url)
  | Gitlab (name : String) (url : Url)
deriving DecidableEq, Repr

/-- Modelled from the spec: the Provider Registry is a process-wide
collection of provider instances; `set_setting_providers` (whose body
lives in the `git` crate, outside this excerpt) "replaces all previously
registered instances sourced from configuration (instances registered
through other means, if any, are outside this resolver's concern)". We
therefore keep the configuration-sourced instances separate from the
rest. -/
structure GitHostingProviderRegistry where
  setting_providers : List ProviderInstance
  other_providers : List ProviderInstance
deriving DecidableEq, Repr

/-- Modelled from the spec: `GitHostingProviderRegistry::set_setting_providers`
replaces the configuration-sourced contents wholesale and touches nothing
else. -/
def GitHostingProviderRegistry.set_setting_providers
    (r : GitHostingProviderRegistry) (ps : List ProviderInstance) :
    GitHostingProviderRegistry :=
  { r with setting_providers := ps }

/-- The body of the `filter_map` closure in
`update_git_hosting_providers_from_settings` (`settings.rs` lines 43-53):
parse the base URL (`?` on failure, after logging) and construct the
kind-specific instance from the declaration's name and the parsed URL.
URL parsing is the external `url` crate, passed in as a parameter. -/
def resolveProvider (parseUrl : String → Option Url)
    (provider : GitHostingProviderConfig) : Option ProviderInstance :=
  match parseUrl provider.base_url with
  | none => none
  | some url =>
    some (match provider.provider with
      | GitHostingProviderKind.Bitbucket =>
          ProviderInstance.Bitbucket provider.name url
      | GitHostingProviderKind.Github =>
          ProviderInstance.Github provider.name url
      | GitHostingProviderKind.Gitlab =>
          ProviderInstance.Gitlab provider.name url)

/-- `update_git_hosting_providers_from_settings` (`settings.rs` lines
27-56). The global settings hold one list of declarations; the settings
store holds the local-scope lists, flattened in order (`flat_map`). The
global list is chained with the flattened local values, each entry is
resolved through the `filter_map` closure, and the registry's
configuration-sourced providers are replaced with the result. -/
def update_git_hosting_providers_from_settings
    (parseUrl : String → Option Url)
    (globalProviders : List GitHostingProviderConfig)
    (localLists : List (List GitHostingProviderConfig))
    (registry : GitHostingProviderRegistry) : GitHostingProviderRegistry :=
  let local_values := localLists.flatten
  let iter := (globalProviders ++ local_values).filterMap
    (resolveProvider parseUrl)
  registry.set_setting_providers iter

/-- Split a character sequence at the first occurrence of `://`,
returning the scheme part and the remainder. -/
def splitScheme : List Char → Option (List Char × List Char)
  | [] => none
  | ':' :: '/' :: '/' :: rest => some ([], rest)
  | c :: rest => (splitScheme rest).map (fun p => (c :: p.1, p.2))

/-- Modelled from the spec: the external `url` crate's `Url::parse`,
which is not part of this repository. Faithful to the spec's scenarios:
a string parses as a URL when it has a nonempty alphabetic scheme
followed by `://` and contains no spaces (so `"https://github.com"`
parses and `"not a url"` does not). -/
def urlParse (s : String) : Option Url :=
  match splitScheme s.data with
  | some (scheme, rest) =>
      if scheme ≠ [] ∧ scheme.all Char.isAlpha ∧ ¬ (s.data.contains ' ') then
        some ⟨⟨scheme⟩, ⟨rest⟩⟩
      else none
  | none => none

end GitHosting

namespace BreadcrumbsMod

/-- A breadcrumb segment (`BreadcrumbText` in `workspace::item`). The
`highlights` and `font` fields carry only presentation data and are not
inspected by the truncation logic, so only the text is modelled. -/
structure BreadcrumbText where
  text : String
deriving DecidableEq, Repr

/-- `MAX_SEGMENTS` in `Breadcrumbs::render` (`breadcrumbs.rs` line 41). -/
def MAX_SEGMENTS : Nat := 12

/-- The ellipsis segment spliced in by `Breadcrumbs::render`
(`breadcrumbs.rs` lines 58-62). -/
def ellipsisSegment : BreadcrumbText := ⟨"⋯"⟩

/-- The segment-truncation step of `Breadcrumbs::render`
(`breadcrumbs.rs` lines 50-64): compute `prefix_end_ix` and
`suffix_start_ix` and, when the latter strictly exceeds the former,
splice the range between them out, replacing it with a single ellipsis
segment. `Vec::splice(a..b, once(e))` on a list is
`take a ++ [e] ++ drop b`. Rust's `saturating_sub` is Nat subtraction. -/
def truncateSegments (segments : List BreadcrumbText) : List BreadcrumbText :=
  let prefix_end_ix := min segments.length (MAX_SEGMENTS / 2)
  let suffix_start_ix :=
    max prefix_end_ix (segments.length - MAX_SEGMENTS / 2)
  if suffix_start_ix > prefix_end_ix then
    segments.take prefix_end_ix ++ [ellipsisSegment]
      ++ segments.drop suffix_start_ix
  else
    segments

/-- `ToolbarItemLocation` from the `workspace` crate (declared outside
this excerpt); `breadcrumbs.rs` returns `Hidden` when there is no active
pane item. -/
inductive ToolbarItemLocation
  | Hidden
  | PrimaryLeft
  | PrimaryRight
  | Secondary
deriving DecidableEq, Repr

/-- The `Breadcrumbs` toolbar item state (`breadcrumbs.rs` lines 15-19),
over an abstract pane-item handle type. The subscription handle is
framework glue; only its presence is modelled. -/
structure Breadcrumbs (Item : Type) where
  pane_focused : Bool
  active_item : Option Item
  subscription : Option Unit

/-- `Breadcrumbs::set_active_pane_item` (`breadcrumbs.rs` lines
115-146), with the pane item's `breadcrumb_location` method passed in
explicitly. The field is first cleared; with no item the function
returns `Hidden`; otherwise a subscription is installed, the item is
cloned into `active_item`, and the item's breadcrumb location is
returned. -/
def set_active_pane_item {Item : Type}
    (breadcrumb_location : Item → ToolbarItemLocation)
    (b : Breadcrumbs Item) (active_pane_item : Option Item) :
    Breadcrumbs Item × ToolbarItemLocation :=
  let b := { b with active_item := none }
  match active_pane_item with
  | none => (b, ToolbarItemLocation.Hidden)
  | some item =>
      let b := { b with subscription := some () }
      let b := { b with active_item := some item }
      (b, breadcrumb_location item)

end BreadcrumbsMod

namespace DiffFormat

/-- `DiffViewFormat` from the `editor` crate, as enumerated in
`diff_view_format_selector.rs`. -/
inductive DiffViewFormat
  | Unified
  | AdditionsOnly
  | DeletionsOnly
deriving DecidableEq, Repr

/-- The picker delegate state (`diff_view_format_selector.rs` lines
65-70). The Rust field `formats: [DiffViewFormat; 3]` is a fixed-size
array, so the model carries the length fact as part of the type. The
`selector` and `editor` handles are framework glue and not modelled. -/
structure DiffViewFormatSelectorDelegate where
  formats : List DiffViewFormat
  formats_len : formats.length = 3
  selected_index : Nat

/-- `DiffViewFormatSelectorDelegate::new` (`diff_view_format_selector.rs`
lines 72-91): the formats array is `[Unified, AdditionsOnly,
DeletionsOnly]` and the selected index is the position of the editor's
current format, falling back to 0 (`position(..).unwrap_or(0)`). -/
def DiffViewFormatSelectorDelegate.new (current : DiffViewFormat) :
    DiffViewFormatSelectorDelegate where
  formats := [DiffViewFormat.Unified, DiffViewFormat.AdditionsOnly,
    DiffViewFormat.DeletionsOnly]
  formats_len := rfl
  selected_index :=
    match [DiffViewFormat.Unified, DiffViewFormat.AdditionsOnly,
        DiffViewFormat.DeletionsOnly].findIdx? (· == current) with
    | some i => i
    | none => 0

/-- `set_selected_index` (`diff_view_format_selector.rs` lines 117-125):
the requested index is clamped with `ix.min(self.formats.len() - 1)`. -/
def set_selected_index (d : DiffViewFormatSelectorDelegate) (ix : Nat) :
    DiffViewFormatSelectorDelegate :=
  { d with selected_index := min ix (d.formats.length - 1) }

/-- The indexing read performed by `confirm`
(`diff_view_format_selector.rs` line 128): `self.formats[self.selected_index]`,
modelled as a checked lookup so that in-boundedness is a provable
statement. -/
def confirm_format (d : DiffViewFormatSelectorDelegate) :
    Option DiffViewFormat :=
  d.formats[d.selected_index]?

end DiffFormat

open GitHosting BreadcrumbsMod DiffFormat

/-- C1: the resolver emits provider instances in exactly the order of
the global entries followed by all local entries in their listed order,
with no reordering, deduplication or overriding by name; in particular,
for global entries `[A, B]` and local entries `[C]` that all resolve,
the registry order is `[A, B, C]`. -/
theorem resolver_preserves_declaration_order
    (parseUrl : String → Option Url)
    (G : List GitHostingProviderConfig)
    (Ls : List (List GitHostingProviderConfig))
    (reg : GitHostingProviderRegistry) :
    ((update_git_hosting_providers_from_settings parseUrl G Ls
        reg).setting_providers
      = G.filterMap (resolveProvider parseUrl)
        ++ Ls.flatten.filterMap (resolveProvider parseUrl)) ∧
    (∀ (A B C : GitHostingProviderConfig) (ia ib ic : ProviderInstance)
        (reg2 : GitHostingProviderRegistry),
      resolveProvider parseUrl A = some ia →
      resolveProvider parseUrl B = some ib →
      resolveProvider parseUrl C = some ic →
      (update_git_hosting_providers_from_settings parseUrl [A, B] [[C]]
          reg2).setting_providers = [ia, ib, ic]) := by
  constructor
  · simp [update_git_hosting_providers_from_settings,
      GitHostingProviderRegistry.set_setting_providers,
      List.filterMap_append]
  · intro A B C ia ib ic reg2 hA hB hC
    simp [update_git_hosting_providers_from_settings,
      GitHostingProviderRegistry.set_setting_providers, hA, hB, hC]

/-- Witness for C1 at a concrete configuration: global `[A, B]`, local
`[[C]]`, all parseable, resolve to `[A, B, C]` in order. -/
theorem resolver_preserves_declaration_order_witness :
    (update_git_hosting_providers_from_settings urlParse
        [⟨GitHostingProviderKind.Github, "https://github.com", "A"⟩,
         ⟨GitHostingProviderKind.Gitlab, "https://gitlab.com", "B"⟩]
        [[⟨GitHostingProviderKind.Bitbucket, "https://bitbucket.org", "C"⟩]]
        ⟨[], []⟩).setting_providers
      = [ProviderInstance.Github "A" ⟨"https", "github.com"⟩,
         ProviderInstance.Gitlab "B" ⟨"https", "gitlab.com"⟩,
         ProviderInstance.Bitbucket "C" ⟨"https", "bitbucket.org"⟩] :=
  (resolver_preserves_declaration_order urlParse
      [⟨GitHostingProviderKind.Github, "https://github.com", "A"⟩,
       ⟨GitHostingProviderKind.Gitlab, "https://gitlab.com", "B"⟩]
      [[⟨GitHostingProviderKind.Bitbucket, "https://bitbucket.org", "C"⟩]]
      ⟨[], []⟩).2
    _ _ _ _ _ _ ⟨[], []⟩ (by decide) (by decide) (by decide)

/-- C2: entries whose base URL fails to parse are excluded; all entries
whose base URL parses are included (a malformed entry never aborts the
rest); if every entry is unparseable the resulting registry is empty. -/
theorem resolver_skips_unparseable_entries
    (parseUrl : String → Option Url)
    (G : List GitHostingProviderConfig)
    (Ls : List (List GitHostingProviderConfig))
    (reg : GitHostingProviderRegistry) :
    ((update_git_hosting_providers_from_settings parseUrl G Ls
        reg).setting_providers
      = (G ++ Ls.flatten).filterMap (resolveProvider parseUrl)) ∧
    (∀ p : GitHostingProviderConfig,
      (resolveProvider parseUrl p).isSome ↔ (parseUrl p.base_url).isSome) ∧
    ((∀ p ∈ G ++ Ls.flatten, parseUrl p.base_url = none) →
      (update_git_hosting_providers_from_settings parseUrl G Ls
        reg).setting_providers = []) := by
  refine ⟨?_, ?_, ?_⟩
  · simp [update_git_hosting_providers_from_settings,
      GitHostingProviderRegistry.set_setting_providers]
  · intro p
    cases h : parseUrl p.base_url <;> simp [resolveProvider, h]
  · intro h
    simp only [update_git_hosting_providers_from_settings,
      GitHostingProviderRegistry.set_setting_providers]
    rw [List.filterMap_eq_nil_iff]
    intro p hp
    simp [resolveProvider, h p hp]

/-- Witness for C2: the spec scenario where the only entry has
`base_url: "not a url"`; the resulting registry is empty. -/
theorem resolver_skips_unparseable_entries_witness :
    (update_git_hosting_providers_from_settings urlParse
        [⟨GitHostingProviderKind.Github, "not a url", "Bad"⟩] []
        ⟨[], []⟩).setting_providers = [] :=
  (resolver_skips_unparseable_entries urlParse
      [⟨GitHostingProviderKind.Github, "not a url", "Bad"⟩] []
      ⟨[], []⟩).2.2 (by decide)

/-- C3: each resolution pass replaces the configuration-sourced contents
of the registry with exactly the newly resolved sequence, independently
of the registry's prior contents, while providers registered through
other means are left unchanged. -/
theorem resolver_replaces_setting_providers_only
    (parseUrl : String → Option Url)
    (G : List GitHostingProviderConfig)
    (Ls : List (List GitHostingProviderConfig))
    (reg : GitHostingProviderRegistry) :
    ((update_git_hosting_providers_from_settings parseUrl G Ls
        reg).setting_providers
      = (G ++ Ls.flatten).filterMap (resolveProvider parseUrl)) ∧
    ((update_git_hosting_providers_from_settings parseUrl G Ls
        reg).other_providers = reg.other_providers) := by
  constructor
  · simp [update_git_hosting_providers_from_settings,
      GitHostingProviderRegistry.set_setting_providers]
  · rfl

/-- C4: for every entry with a parseable base URL, the constructed
instance's kind is chosen by an exhaustive match on the entry's
`provider` field over the closed set {GitHub, GitLab, Bitbucket}, with
the entry's name and the parsed URL passed to the kind-specific
constructor. -/
theorem resolver_kind_dispatch
    (parseUrl : String → Option Url)
    (p : GitHostingProviderConfig) (url : Url)
    (h : parseUrl p.base_url = some url) :
    resolveProvider parseUrl p
      = some (match p.provider with
        | GitHostingProviderKind.Bitbucket =>
            ProviderInstance.Bitbucket p.name url
        | GitHostingProviderKind.Github =>
            ProviderInstance.Github p.name url
        | GitHostingProviderKind.Gitlab =>
            ProviderInstance.Gitlab p.name url) := by
  simp [resolveProvider, h]

/-- Witness for C4: a concrete GitHub entry with a parseable base URL
constructs a GitHub instance from its name and the parsed URL. -/
theorem resolver_kind_dispatch_witness :
    resolveProvider urlParse
        ⟨GitHostingProviderKind.Github, "https://github.com", "GH"⟩
      = some (ProviderInstance.Github "GH" ⟨"https", "github.com"⟩) :=
  resolver_kind_dispatch urlParse
    ⟨GitHostingProviderKind.Github, "https://github.com", "GH"⟩
    ⟨"https", "github.com"⟩ (by decide)

/-- C5: the resolver is deterministic and idempotent: running it twice
in succession with unchanged configuration, or from any two prior
registry states, yields registries with element-wise identical
configuration-sourced contents. -/
theorem resolver_deterministic
    (parseUrl : String → Option Url)
    (G : List GitHostingProviderConfig)
    (Ls : List (List GitHostingProviderConfig)) :
    (∀ reg : GitHostingProviderRegistry,
      (update_git_hosting_providers_from_settings parseUrl G Ls
        (update_git_hosting_providers_from_settings parseUrl G Ls reg))
      = update_git_hosting_providers_from_settings parseUrl G Ls reg) ∧
    (∀ reg1 reg2 : GitHostingProviderRegistry,
      (update_git_hosting_providers_from_settings parseUrl G Ls
        reg1).setting_providers
      = (update_git_hosting_providers_from_settings parseUrl G Ls
        reg2).setting_providers) := by
  constructor
  · intro reg
    rfl
  · intro reg1 reg2
    rfl

/-- C6: two entries sharing the same name, whether within one list or
across the global and local lists, both produce instances that coexist
in the resulting registry; no deduplication or shadowing by name. -/
theorem resolver_no_name_dedup
    (parseUrl : String → Option Url)
    (A B : GitHostingProviderConfig) (ia ib : ProviderInstance)
    (reg : GitHostingProviderRegistry)
    (hname : A.name = B.name)
    (ha : resolveProvider parseUrl A = some ia)
    (hb : resolveProvider parseUrl B = some ib) :
    ((update_git_hosting_providers_from_settings parseUrl [A, B] []
        reg).setting_providers = [ia, ib]) ∧
    ((update_git_hosting_providers_from_settings parseUrl [A] [[B]]
        reg).setting_providers = [ia, ib]) := by
  constructor <;>
    simp [update_git_hosting_providers_from_settings,
      GitHostingProviderRegistry.set_setting_providers, ha, hb]

/-- Witness for C6: two entries both named "GH" (one global, checked in
both placements) coexist in the registry. -/
theorem resolver_no_name_dedup_witness :
    ((update_git_hosting_providers_from_settings urlParse
        [⟨GitHostingProviderKind.Github, "https://github.com", "GH"⟩,
         ⟨GitHostingProviderKind.Gitlab, "https://example.com", "GH"⟩] []
        ⟨[], []⟩).setting_providers
      = [ProviderInstance.Github "GH" ⟨"https", "github.com"⟩,
         ProviderInstance.Gitlab "GH" ⟨"https", "example.com"⟩]) ∧
    ((update_git_hosting_providers_from_settings urlParse
        [⟨GitHostingProviderKind.Github, "https://github.com", "GH"⟩]
        [[⟨GitHostingProviderKind.Gitlab, "https://example.com", "GH"⟩]]
        ⟨[], []⟩).setting_providers
      = [ProviderInstance.Github "GH" ⟨"https", "github.com"⟩,
         ProviderInstance.Gitlab "GH" ⟨"https", "example.com"⟩]) :=
  resolver_no_name_dedup urlParse
    ⟨GitHostingProviderKind.Github, "https://github.com", "GH"⟩
    ⟨GitHostingProviderKind.Gitlab, "https://example.com", "GH"⟩
    _ _ ⟨[], []⟩ rfl (by decide) (by decide)

/-- C7: resolving the single global entry
`{provider: github, base_url: "https://github.com", name: "GH"}` with no
local lists yields a registry holding exactly one GitHub instance named
"GH" with base URL `https://github.com`. -/
theorem resolver_single_github_scenario
    (reg : GitHostingProviderRegistry) :
    (update_git_hosting_providers_from_settings urlParse
        [⟨GitHostingProviderKind.Github, "https://github.com", "GH"⟩] []
        reg).setting_providers
      = [ProviderInstance.Github "GH" ⟨"https", "github.com"⟩] := by
  simp [update_git_hosting_providers_from_settings,
    GitHostingProviderRegistry.set_setting_providers]
  decide

/-- C8: with at most 12 segments the breadcrumb list is rendered
unchanged in order with no ellipsis; with more than 12 segments the
rendered list is the first 6 segments, one ellipsis segment, and the
last 6 segments — 13 items in total. -/
theorem breadcrumbs_truncation (segments : List BreadcrumbText) :
    (segments.length ≤ 12 → truncateSegments segments = segments) ∧
    (12 < segments.length →
      truncateSegments segments
        = segments.take 6 ++ [ellipsisSegment]
            ++ segments.drop (segments.length - 6) ∧
      (truncateSegments segments).length = 13) := by
  constructor
  · intro h
    simp only [truncateSegments, MAX_SEGMENTS]
    rw [if_neg (by omega)]
  · intro h
    have heq : truncateSegments segments
        = segments.take 6 ++ [ellipsisSegment]
            ++ segments.drop (segments.length - 6) := by
      simp only [truncateSegments, MAX_SEGMENTS]
      rw [show min segments.length (12 / 2) = 6 from by omega,
        show max 6 (segments.length - 12 / 2) = segments.length - 6
          from by omega,
        if_pos (by omega)]
    refine ⟨heq, ?_⟩
    rw [heq]
    simp only [List.length_append, List.length_take, List.length_drop,
      List.length_cons, List.length_nil]
    omega

/-- Witness for C8: a 13-segment list is truncated to the first 6
segments, an ellipsis, and the last 6; a 12-segment list is unchanged. -/
theorem breadcrumbs_truncation_witness :
    (truncateSegments [⟨"a"⟩, ⟨"b"⟩, ⟨"c"⟩, ⟨"d"⟩, ⟨"e"⟩, ⟨"f"⟩, ⟨"g"⟩,
        ⟨"h"⟩, ⟨"i"⟩, ⟨"j"⟩, ⟨"k"⟩, ⟨"l"⟩, ⟨"m"⟩]
      = [⟨"a"⟩, ⟨"b"⟩, ⟨"c"⟩, ⟨"d"⟩, ⟨"e"⟩, ⟨"f"⟩, ⟨"⋯"⟩,
        ⟨"h"⟩, ⟨"i"⟩, ⟨"j"⟩, ⟨"k"⟩, ⟨"l"⟩, ⟨"m"⟩]) ∧
    (truncateSegments [⟨"a"⟩, ⟨"b"⟩, ⟨"c"⟩, ⟨"d"⟩, ⟨"e"⟩, ⟨"f"⟩, ⟨"g"⟩,
        ⟨"h"⟩, ⟨"i"⟩, ⟨"j"⟩, ⟨"k"⟩, ⟨"l"⟩]
      = [⟨"a"⟩, ⟨"b"⟩, ⟨"c"⟩, ⟨"d"⟩, ⟨"e"⟩, ⟨"f"⟩, ⟨"g"⟩,
        ⟨"h"⟩, ⟨"i"⟩, ⟨"j"⟩, ⟨"k"⟩, ⟨"l"⟩]) :=
  ⟨((breadcrumbs_truncation _).2 (by decide)).1,
   (breadcrumbs_truncation _).1 (by decide)⟩

/-- C9: in the diff view format selector delegate, `selected_index` is
always a valid index into the three-element `formats` array:
construction initializes it to the position of the current format
(falling back to 0), `set_selected_index` clamps the requested index to
at most `formats.len() - 1`, and whenever the index is in bounds the
`formats[selected_index]` read in `confirm` succeeds. -/
theorem selector_index_in_bounds :
    (∀ current : DiffViewFormat,
      (DiffViewFormatSelectorDelegate.new current).selected_index
        < (DiffViewFormatSelectorDelegate.new current).formats.length) ∧
    (∀ (d : DiffViewFormatSelectorDelegate) (ix : Nat),
      (set_selected_index d ix).selected_index
        < (set_selected_index d ix).formats.length) ∧
    (∀ d : DiffViewFormatSelectorDelegate,
      d.selected_index < d.formats.length → (confirm_format d).isSome) := by
  refine ⟨?_, ?_, ?_⟩
  · intro current
    cases current <;> decide
  · intro d ix
    have h3 := d.formats_len
    simp only [set_selected_index]
    omega
  · intro d h
    simp [confirm_format, List.getElem?_eq_getElem h]

/-- Witness for C9: a freshly constructed delegate, a delegate whose
index was set to the out-of-range value 7, and the confirm read on the
latter, are all in bounds. -/
theorem selector_index_in_bounds_witness :
    ((DiffViewFormatSelectorDelegate.new DiffViewFormat.AdditionsOnly).selected_index
      < (DiffViewFormatSelectorDelegate.new DiffViewFormat.AdditionsOnly).formats.length) ∧
    ((set_selected_index
        (DiffViewFormatSelectorDelegate.new DiffViewFormat.AdditionsOnly) 7).selected_index
      < (set_selected_index
        (DiffViewFormatSelectorDelegate.new DiffViewFormat.AdditionsOnly) 7).formats.length) ∧
    (confirm_format (set_selected_index
        (DiffViewFormatSelectorDelegate.new DiffViewFormat.AdditionsOnly) 7)).isSome :=
  ⟨selector_index_in_bounds.1 DiffViewFormat.AdditionsOnly,
   selector_index_in_bounds.2.1
     (DiffViewFormatSelectorDelegate.new DiffViewFormat.AdditionsOnly) 7,
   selector_index_in_bounds.2.2
     (set_selected_index
       (DiffViewFormatSelectorDelegate.new DiffViewFormat.AdditionsOnly) 7)
     (selector_index_in_bounds.2.1
       (DiffViewFormatSelectorDelegate.new DiffViewFormat.AdditionsOnly) 7)⟩

/-- C10: `set_active_pane_item` with no pane item clears `active_item`
and returns `Hidden`; with a pane item it stores a clone of the item in
`active_item` and returns the item's breadcrumb location. -/
theorem breadcrumbs_set_active_pane_item {Item : Type}
    (breadcrumb_location : Item → ToolbarItemLocation)
    (b : Breadcrumbs Item) :
    ((set_active_pane_item breadcrumb_location b none).1.active_item = none ∧
     (set_active_pane_item breadcrumb_location b none).2
        = ToolbarItemLocation.Hidden) ∧
    (∀ item : Item,
      (set_active_pane_item breadcrumb_location b (some item)).1.active_item
          = some item ∧
      (set_active_pane_item breadcrumb_location b (some item)).2
          = breadcrumb_location item) :=
  ⟨⟨rfl, rfl⟩, fun _ => ⟨rfl, rfl⟩⟩
